import Mathlib

set_option maxRecDepth 100000

/-!
Verification of the compound-document (CFB / OLE structured storage) core of
the xlnt repository, file source/detail/cryptography/compound_document.cpp.

The C++ code is shallowly embedded: the in-memory document state (header
fields, MSAT, SAT, SSAT, directory entries, parent maps) becomes an explicit
Lean structure, and each member function becomes a state-passing Lean
function transcribed line by line from the source.  Writes to the backing
byte stream (write_sector, write_sat, write_header, write_entry) have no
effect on the in-memory tables, so they are omitted from the in-memory
transition functions; the byte offsets they use are embedded separately as
pure offset computations where a claim is about them.  Unbounded C++ while
loops are embedded with an explicit fuel argument; fuel exhaustion is kept
distinct from normal return values.

The layout of compound_document_header and compound_document_entry comes
from the spec (the header file is not part of the sources): a 512 byte
header, 128 byte directory entries, sector_size_power 9, and default entry
fields name empty, type Empty, color Black, prev, next, child all End,
start END_OF_CHAIN, size 0.
-/

/-- Sector identifiers: signed 32-bit in the source, embedded as Int.  All
values reachable here are far from the 32-bit boundary, so no modular
reduction is needed. -/
abbrev SectorId := Int

/-- Directory identifiers, signed 32-bit in the source. -/
abbrev DirectoryId := Int

/-- const sector_id FreeSector = -1 -/
def FreeSector : SectorId := -1

/-- const sector_id EndOfChain = -2 -/
def EndOfChain : SectorId := -2

/-- const sector_id SATSector = -3 -/
def SATSector : SectorId := -3

/-- const directory_id End = -1 -/
def EndDir : DirectoryId := -1

/-- compound_document_entry::entry_type from the spec data model. -/
inductive EntryType where
  | Empty
  | UserStorage
  | UserStream
  | LockBytes
  | Property
  | RootStorage
deriving DecidableEq, Repr

/-- compound_document_entry::entry_color. -/
inductive EntryColor where
  | Red
  | Black
deriving DecidableEq, Repr

/-- One 128-byte directory entry record (compound_document_entry).
Modelled from the spec: the header file declaring it is not in src; fields
and defaults follow the spec data model (section 3) and scenario 1. -/
structure CDEntry where
  name : String := ""
  type : EntryType := EntryType.Empty
  color : EntryColor := EntryColor.Black
  prev : DirectoryId := EndDir
  next : DirectoryId := EndDir
  child : DirectoryId := EndDir
  start : SectorId := EndOfChain
  size : Nat := 0
deriving DecidableEq, Repr

/-- compound_document_header.  Modelled from the spec: the header file is
not in src; fields follow spec section 4.G.  Only the fields the embedded
functions read or write are kept. -/
structure CDHeader where
  sector_size_power : Nat := 9
  short_sector_size_power : Nat := 6
  num_msat_sectors : Nat := 0
  directory_start : SectorId := EndOfChain
  ssat_start : SectorId := EndOfChain
  msat : List SectorId := List.replicate 109 FreeSector
deriving DecidableEq, Repr

/-- The in-memory state of a compound_document: header plus the msat_,
sat_, ssat_, entries_, parent_ and parent_storage_ members.  The two maps
are std::unordered_map in the source whose operator[] default-constructs a
0 value, hence total functions with initial constant 0. -/
structure DocState where
  header : CDHeader
  msat : List SectorId := []
  sat : List SectorId := []
  ssat : List SectorId := []
  entries : List CDEntry := []
  parent : DirectoryId → DirectoryId := fun _ => 0
  parentStorage : DirectoryId → DirectoryId := fun _ => 0

/-- sector_size() = 1 shifted left by header_.sector_size_power. -/
def sector_size (d : DocState) : Nat := 2 ^ d.header.sector_size_power

/-- sector_data_start() = sizeof(compound_document_header) = 512. -/
def sector_data_start : Nat := 512

/-- sizeof(compound_document_entry) = 128 (spec: 128 bytes on disk). -/
def entry_size : Nat := 128

/-- Outcome of following a chain: normal termination, an out-of-range read
of the table (undefined behaviour in the C++), or fuel exhaustion, which
witnesses that the loop runs forever. -/
inductive ChainResult where
  | ok (chain : List SectorId)
  | outOfRange
  | fuelOut
deriving DecidableEq, Repr

/-- The loop of compound_document::follow_chain: while current is
nonnegative, append current and step to table[current].  The source has no
cycle or range check; reading table[current] out of range is undefined
behaviour, represented by ChainResult.outOfRange, and a loop that does not
terminate within the given fuel yields ChainResult.fuelOut. -/
def follow_chain_go (table : List SectorId) : Nat → SectorId → List SectorId → ChainResult
  | 0, _, _ => ChainResult.fuelOut
  | fuel + 1, current, acc =>
    if current ≥ 0 then
      match table.get? current.toNat with
      | some nxt => follow_chain_go table fuel nxt (acc ++ [current])
      | none => ChainResult.outOfRange
    else
      ChainResult.ok acc

/-- compound_document::follow_chain(start, table). -/
def follow_chain (fuel : Nat) (start : SectorId) (table : List SectorId) : ChainResult :=
  follow_chain_go table fuel start []

/-- sectors_per_sector = sector_size() / sizeof(sector_id). -/
def sectors_per_sector (d : DocState) : Nat := sector_size d / 4

/-- Index of the first FreeSector slot of a table, the
std::find(sat_.begin(), sat_.end(), FreeSector) of the source. -/
def find_free (table : List SectorId) : Option Nat :=
  table.findIdx? (fun s => s = FreeSector)

/-- compound_document::allocate_sector, in-memory effects.  Scans the SAT
for FreeSector; when none is present it grows the SAT by one page: records
the new page id in msat_ and in header_.msat at index msat_.size() - 1,
extends sat_ with FreeSector slots, and marks the page SATSector.  The
header counter num_msat_sectors is only read (into next_msat_index, used as
a write offset), never incremented, and no MSAT extension sector is ever
allocated.  Then the first FreeSector slot is marked EndOfChain and
returned.  The disk writes (write_sector of the new page, write_sat, the
zeroing of the payload sector) do not alter the in-memory tables. -/
def allocate_sector (d : DocState) : SectorId × DocState :=
  let d1 :=
    if (find_free d.sat).isNone then
      let new_sat_sector_id : SectorId := Int.ofNat d.sat.length
      let msat1 := d.msat ++ [new_sat_sector_id]
      let hmsat1 := d.header.msat.set (msat1.length - 1) new_sat_sector_id
      let sat1 :=
        (d.sat ++ List.replicate (sectors_per_sector d) FreeSector).set
          new_sat_sector_id.toNat SATSector
      { d with
        msat := msat1
        sat := sat1
        header := { d.header with msat := hmsat1 } }
    else d
  match find_free d1.sat with
  | some next_free =>
    (Int.ofNat next_free, { d1 with sat := d1.sat.set next_free EndOfChain })
  | none => (Int.ofNat d1.sat.length, d1)

/-- The loop of compound_document::allocate_sectors: runs count - 1 times;
each iteration pushes the current sector onto the chain, allocates the
next, links sat_[current] = next and advances.  The sector held in current
when the loop ends is not appended before returning. -/
def allocate_sectors_go : Nat → SectorId → DocState → List SectorId → List SectorId × DocState
  | 0, _, d, chain => (chain, d)
  | n + 1, current, d, chain =>
    let chain1 := chain ++ [current]
    let (next, d1) := allocate_sector d
    let d2 := { d1 with sat := d1.sat.set current.toNat next }
    allocate_sectors_go n next d2 chain1

/-- compound_document::allocate_sectors(count). -/
def allocate_sectors (count : Nat) (d : DocState) : List SectorId × DocState :=
  if count = 0 then ([], d)
  else
    let (current, d1) := allocate_sector d
    allocate_sectors_go (count - 1) current d1 []

/-- compound_document::next_empty_entry, in-memory effects.  Scans entries_
for the first entry of type Empty; when none exists it calls
allocate_sector (the returned sector id is unused: the source carries the
comment TODO connect chains here and never links the new sector into the
directory chain) and appends sector_size/128 fresh Empty entries.  The
write_entry calls touch only the backing stream. -/
def next_empty_entry (d : DocState) : DirectoryId × DocState :=
  match d.entries.findIdx? (fun e => e.type = EntryType.Empty) with
  | some i => (Int.ofNat i, d)
  | none =>
    let entries_per_sector := sector_size d / entry_size
    let (_, d1) := allocate_sector d
    let newEntries := List.replicate entries_per_sector { type := EntryType.Empty : CDEntry }
    (Int.ofNat d.entries.length, { d1 with entries := d1.entries ++ newEntries })

/-- The byte offset at which compound_document::read_entry(id) reads the
128-byte record: sector_data_start() + sector_size*directory_sector +
(id mod entries_per_sector)*128, where directory_sector is entry
id / entries_per_sector of the directory chain followed from
header_.directory_start through the SAT. -/
def read_entry_offset (fuel : Nat) (d : DocState) (id : Nat) : Option Nat :=
  match follow_chain fuel d.header.directory_start d.sat with
  | ChainResult.ok directory_chain =>
    let entries_per_sector := sector_size d / entry_size
    match directory_chain.get? (id / entries_per_sector) with
    | some directory_sector =>
      some (sector_data_start + sector_size d * directory_sector.toNat
        + (id % entries_per_sector) * entry_size)
    | none => none
  | _ => none

/-- The byte offset at which compound_document::write_entry(id) writes the
same record: identical arithmetic except that the source seeks to offset
alone, without adding sector_data_start(). -/
def write_entry_offset (fuel : Nat) (d : DocState) (id : Nat) : Option Nat :=
  match follow_chain fuel d.header.directory_start d.sat with
  | ChainResult.ok directory_chain =>
    let entries_per_sector := sector_size d / entry_size
    match directory_chain.get? (id / entries_per_sector) with
    | some directory_sector =>
      some (sector_size d * directory_sector.toNat
        + (id % entries_per_sector) * entry_size)
    | none => none
  | _ => none

/-- A document state as freshly constructed for write: default header,
empty tables, no entries yet. -/
def docFresh : DocState := { header := {} }

/-- A document state whose single SAT page is fully allocated: slot 0 holds
the SAT page itself, every other slot is EndOfChain, the MSAT records page
0 and the header counter num_msat_sectors is 1, in sync with msat_. -/
def docFullSat : DocState :=
  { header := { num_msat_sectors := 1, msat := (List.replicate 109 FreeSector).set 0 0 }
    msat := [0]
    sat := (List.replicate 128 EndOfChain).set 0 SATSector }

/-- A document state whose directory chain is the single sector 1 holding
four directory entries, all in use (type UserStream): sector 0 is the SAT
page, sector 1 the directory sector, all further slots free. -/
def docDirFull : DocState :=
  { header :=
      { num_msat_sectors := 1
        directory_start := 1
        msat := (List.replicate 109 FreeSector).set 0 0 }
    msat := [0]
    sat := ((List.replicate 128 FreeSector).set 0 SATSector).set 1 EndOfChain
    entries := List.replicate 4 { type := EntryType.UserStream } }

theorem follow_chain_go_self_loop (fuel : Nat) (acc : List SectorId) :
    follow_chain_go [0] fuel 0 acc = ChainResult.fuelOut := by
  induction fuel generalizing acc with
  | zero => rfl
  | succ n ih => simpa [follow_chain_go] using ih (acc ++ [0])

/-- C5.  The claim says follow_chain signals a fatal structural error on a
self-loop, a revisited sector or an out-of-range index.  The source checks
nothing: on the self-looping table whose slot 0 holds 0 the loop never
terminates (fuel exhaustion for every fuel), and on an out-of-range index
the C++ performs an unchecked vector read (undefined behaviour), neither of
which is a signalled error. -/
theorem C5_follow_chain_no_error_detection :
    (∀ fuel : Nat, follow_chain fuel 0 [0] = ChainResult.fuelOut) ∧
      follow_chain 5 0 [3] = ChainResult.outOfRange := by
  constructor
  · intro fuel
    exact follow_chain_go_self_loop fuel []
  · rfl

/-- C2.  The claim says allocate_sectors(n) returns a chain of exactly n
sector ids.  On a fresh document, allocate_sectors 1 allocates one sector
but returns the empty chain: the loop appends only the n - 1 predecessors
and the final current sector is never pushed (unlike the otherwise parallel
allocate_short_sectors, which appends it after the loop). -/
theorem C2_allocate_sectors_drops_last :
    (allocate_sectors 1 docFresh).1 = [] ∧
      (allocate_sectors 3 docFresh).1 = [1, 2] := by
  constructor <;> rfl

/-- C4.  The claim says the SAT-growth path of allocate_sector records the
new SAT page in the MSAT at index header.num_msat_sectors and then
increments that counter.  On a document whose only SAT page is full, the
call does append a new SAT page (sector 128, recorded in msat_ and marked
SATSector) and returns the fresh slot 129, but header.num_msat_sectors is
left at 1: the source never increments it, so the grown table is invisible
to the read path, and no MSAT extension sector is ever allocated. -/
theorem C4_allocate_sector_counter_not_incremented :
    (allocate_sector docFullSat).1 = 129 ∧
      ((allocate_sector docFullSat).2).msat = [0, 128] ∧
      ((allocate_sector docFullSat).2).sat.get? 128 = some SATSector ∧
      ((allocate_sector docFullSat).2).header.num_msat_sectors = 1 := by
  refine ⟨rfl, rfl, rfl, rfl⟩

/-- C3.  The claim says the new directory sector allocated by
next_empty_entry is spliced into the directory chain before entries are
written.  On a document whose directory chain is the single full sector 1,
the call allocates sector 2 (its SAT slot becomes EndOfChain) and returns
the fresh directory id 4, but the SAT slot of the old tail 1 still holds
EndOfChain, so the chain followed from header.directory_start is still
just the sector 1 and never reaches the sector holding the new entries:
the source carries the comment TODO connect chains here. -/
theorem C3_next_empty_entry_not_spliced :
    (next_empty_entry docDirFull).1 = 4 ∧
      ((next_empty_entry docDirFull).2).sat.get? 2 = some EndOfChain ∧
      ((next_empty_entry docDirFull).2).sat.get? 1 = some EndOfChain ∧
      follow_chain 10 docDirFull.header.directory_start
        ((next_empty_entry docDirFull).2).sat = ChainResult.ok [1] := by
  refine ⟨rfl, rfl, rfl, rfl⟩

/-- C10.  The claim says write_entry(id) writes at the same absolute offset
sector_data_start() + sector_size()*chain[id / eps] + (id mod eps)*128 from
which read_entry(id) reads.  On a document whose directory chain is the
single sector 1, entry 0 is read from byte 1024 = 512 + 512*1 but written
to byte 512 = 512*1: the source seeks write_entry to the offset without
adding sector_data_start(). -/
theorem C10_write_entry_offset_misses_data_start :
    read_entry_offset 10 docDirFull 0 = some 1024 ∧
      write_entry_offset 10 docDirFull 0 = some 512 := by
  constructor <;> rfl

/-- One character of the host locale tolower, which on the default locale
lowers only the ASCII range, as the spec fixes. -/
def lower_char (c : Char) : Char :=
  if 'A' ≤ c ∧ c ≤ 'Z' then Char.ofNat (c.toNat + 32) else c

/-- The lowercase fold applied by compare_keys to both operands. -/
def to_lower (s : String) : String := ⟨s.data.map lower_char⟩

/-- std::string::compare(l, r) > 0: lexicographic greater-than on the
character sequences, a longer string exceeding its proper initial
segment. -/
def chars_gt : List Char → List Char → Bool
  | [], _ => false
  | _ :: _, [] => true
  | a :: as, b :: bs =>
    if b.toNat < a.toNat then true
    else if a.toNat < b.toNat then false
    else chars_gt as bs

/-- compare_keys(left, right) > 0, the only use the source makes of the
comparison: compare the lowercase folds of the two names. -/
def compare_keys_pos (left right : String) : Bool :=
  chars_gt (to_lower left).data (to_lower right).data

/-- join_path: appends every part followed by a slash. -/
def join_path (path : List String) : String :=
  path.foldl (fun joined part => joined ++ part ++ "/") ""

/-- entries_[id] as the source indexes it (no bounds check; a negative or
too large id is undefined behaviour there and yields the default record
here, which no reachable call does). -/
def entryAt (d : DocState) (id : DirectoryId) : CDEntry :=
  d.entries.getD id.toNat {}

/-- Replace entries_[id]. -/
def setEntry (d : DocState) (id : DirectoryId) (e : CDEntry) : DocState :=
  { d with entries := d.entries.set id.toNat e }

/-- tree_left(id) = entries_[id].prev. -/
def tree_left (d : DocState) (id : DirectoryId) : DirectoryId := (entryAt d id).prev

/-- tree_left(id) = v. -/
def set_tree_left (d : DocState) (id v : DirectoryId) : DocState :=
  setEntry d id { entryAt d id with prev := v }

/-- tree_right(id) = entries_[id].next. -/
def tree_right (d : DocState) (id : DirectoryId) : DirectoryId := (entryAt d id).next

/-- tree_right(id) = v. -/
def set_tree_right (d : DocState) (id v : DirectoryId) : DocState :=
  setEntry d id { entryAt d id with next := v }

/-- tree_child(id) = entries_[id].child. -/
def tree_child (d : DocState) (id : DirectoryId) : DirectoryId := (entryAt d id).child

/-- tree_child(id) = v. -/
def set_tree_child (d : DocState) (id v : DirectoryId) : DocState :=
  setEntry d id { entryAt d id with child := v }

/-- tree_color(id) = entries_[id].color. -/
def tree_color (d : DocState) (id : DirectoryId) : EntryColor := (entryAt d id).color

/-- tree_color(id) = c. -/
def set_tree_color (d : DocState) (id : DirectoryId) (c : EntryColor) : DocState :=
  setEntry d id { entryAt d id with color := c }

/-- tree_key(id) = entries_[id].name(). -/
def tree_key (d : DocState) (id : DirectoryId) : String := (entryAt d id).name

/-- tree_parent(id) = parent_[id], an unordered_map read. -/
def tree_parent (d : DocState) (id : DirectoryId) : DirectoryId := d.parent id

/-- tree_parent(id) = v. -/
def set_tree_parent (d : DocState) (id v : DirectoryId) : DocState :=
  { d with parent := fun j => if j = id then v else d.parent j }

/-- tree_root(id) = tree_child(parent_storage_[id]). -/
def tree_root (d : DocState) (id : DirectoryId) : DirectoryId :=
  tree_child d (d.parentStorage id)

/-- tree_root(id) = v, that is entries_[parent_storage_[id]].child = v. -/
def set_tree_root (d : DocState) (id v : DirectoryId) : DocState :=
  set_tree_child d (d.parentStorage id) v

/-- parent_storage_[id] = v. -/
def set_parent_storage (d : DocState) (id v : DirectoryId) : DocState :=
  { d with parentStorage := fun j => if j = id then v else d.parentStorage j }

/-- compound_document::tree_rotate_left(x), transcribed statement by
statement with the state threaded through each write. -/
def tree_rotate_left (d0 : DocState) (x : DirectoryId) : DocState :=
  let y := tree_right d0 x
  let d1 := set_tree_right d0 x (tree_left d0 y)
  let d2 := if tree_left d1 y ≠ EndDir then set_tree_parent d1 (tree_left d1 y) x else d1
  let d3 := set_tree_parent d2 y (tree_parent d2 x)
  let d4 :=
    if tree_parent d3 x = EndDir then set_tree_root d3 x y
    else if x = tree_left d3 (tree_parent d3 x) then set_tree_left d3 (tree_parent d3 x) y
    else set_tree_right d3 (tree_parent d3 x) y
  let d5 := set_tree_left d4 y x
  set_tree_parent d5 x y

/-- compound_document::tree_rotate_right(y), transcribed statement by
statement. -/
def tree_rotate_right (d0 : DocState) (y : DirectoryId) : DocState :=
  let x := tree_left d0 y
  let d1 := set_tree_left d0 y (tree_right d0 x)
  let d2 := if tree_right d1 x ≠ EndDir then set_tree_parent d1 (tree_right d1 x) y else d1
  let d3 := set_tree_parent d2 x (tree_parent d2 y)
  let d4 :=
    if tree_parent d3 y = EndDir then set_tree_root d3 y x
    else if y = tree_left d3 (tree_parent d3 y) then set_tree_left d3 (tree_parent d3 y) x
    else set_tree_right d3 (tree_parent d3 y) x
  let d5 := set_tree_right d4 x y
  set_tree_parent d5 y x

/-- One iteration of the while loop of tree_insert_fixup: the two
symmetric branches with their three cases, transcribed statement by
statement; returns the new state and the new value of the loop variable. -/
def fixup_step (d : DocState) (x : DirectoryId) : DocState × DirectoryId :=
  if tree_parent d x = tree_left d (tree_parent d (tree_parent d x)) then
    let y := tree_right d (tree_parent d (tree_parent d x))
    if y ≥ 0 ∧ tree_color d y = EntryColor.Red then
      let d1 := set_tree_color d (tree_parent d x) EntryColor.Black
      let d2 := set_tree_color d1 y EntryColor.Black
      let d3 := set_tree_color d2 (tree_parent d2 (tree_parent d2 x)) EntryColor.Red
      (d3, tree_parent d3 (tree_parent d3 x))
    else
      let p :=
        if x = tree_right d (tree_parent d x) then
          let x1 := tree_parent d x
          (tree_rotate_left d x1, x1)
        else (d, x)
      let d1 := p.1
      let x1 := p.2
      let d2 := set_tree_color d1 (tree_parent d1 x1) EntryColor.Black
      let d3 := set_tree_color d2 (tree_parent d2 (tree_parent d2 x1)) EntryColor.Red
      let d4 := tree_rotate_right d3 (tree_parent d3 (tree_parent d3 x1))
      (d4, x1)
  else
    let y := tree_left d (tree_parent d (tree_parent d x))
    if y ≥ 0 ∧ tree_color d y = EntryColor.Red then
      let d1 := set_tree_color d (tree_parent d x) EntryColor.Black
      let d2 := set_tree_color d1 y EntryColor.Black
      let d3 := set_tree_color d2 (tree_parent d2 (tree_parent d2 x)) EntryColor.Red
      (d3, tree_parent d3 (tree_parent d3 x))
    else
      let p :=
        if x = tree_left d (tree_parent d x) then
          let x1 := tree_parent d x
          (tree_rotate_right d x1, x1)
        else (d, x)
      let d1 := p.1
      let x1 := p.2
      let d2 := set_tree_color d1 (tree_parent d1 x1) EntryColor.Black
      let d3 := set_tree_color d2 (tree_parent d2 (tree_parent d2 x1)) EntryColor.Red
      let d4 := tree_rotate_left d3 (tree_parent d3 (tree_parent d3 x1))
      (d4, x1)

/-- The while loop of tree_insert_fixup, with fuel for the unbounded C++
loop. -/
def tree_insert_fixup_go : Nat → DocState → DirectoryId → Option (DocState × DirectoryId)
  | 0, d, x =>
    if x ≠ tree_root d x ∧ tree_color d (tree_parent d x) = EntryColor.Red then none
    else some (d, x)
  | fuel + 1, d, x =>
    if x ≠ tree_root d x ∧ tree_color d (tree_parent d x) = EntryColor.Red then
      let p := fixup_step d x
      tree_insert_fixup_go fuel p.1 p.2
    else some (d, x)

/-- compound_document::tree_insert_fixup(x): colour x Red, run the loop,
then recolour the root Black. -/
def tree_insert_fixup (fuel : Nat) (d : DocState) (x : DirectoryId) : Option DocState :=
  let d0 := set_tree_color d x EntryColor.Red
  match tree_insert_fixup_go fuel d0 x with
  | some (d1, x1) => some (set_tree_color d1 (tree_root d1 x1) EntryColor.Black)
  | none => none

/-- The BST descent loop of tree_insert: walk down from the root, tracking
the last visited node y, branching right exactly when the new key compares
greater than the key at x. -/
def tree_descend_go (d : DocState) (new_id : DirectoryId) :
    Nat → DirectoryId → DirectoryId → Option DirectoryId
  | 0, x, y => if x ≥ 0 then none else some y
  | fuel + 1, x, y =>
    if x ≥ 0 then
      let x1 :=
        if compare_keys_pos (tree_key d new_id) (tree_key d x) then tree_right d x
        else tree_left d x
      tree_descend_go d new_id fuel x1 x
    else some y

/-- compound_document::tree_insert(new_id, storage_id), transcribed
statement by statement. -/
def tree_insert (fuel : Nat) (d : DocState) (new_id storage_id : DirectoryId) :
    Option DocState :=
  let d0 := set_parent_storage d new_id storage_id
  let d1 := set_tree_left d0 new_id EndDir
  let d2 := set_tree_right d1 new_id EndDir
  if tree_root d2 new_id = EndDir then
    let d3 := if new_id ≠ 0 then set_tree_root d2 new_id new_id else d2
    let d4 := set_tree_color d3 new_id EntryColor.Black
    some (set_tree_parent d4 new_id EndDir)
  else
    match tree_descend_go d2 new_id fuel (tree_root d2 new_id) EndDir with
    | none => none
    | some y =>
      let d3 := set_tree_parent d2 new_id y
      let d4 :=
        if compare_keys_pos (tree_key d3 new_id) (tree_key d3 y) then
          set_tree_right d3 y new_id
        else set_tree_left d3 y new_id
      tree_insert_fixup fuel d4 new_id

/-- compound_document::insert_entry(name, type): take the next empty
directory id, set its name and type, and splice it into the tree of
storage 0 regardless of the path (the source carries the comment TODO
parse path from name and use correct parent storage instead of 0).  The
write_entry call touches only the backing stream. -/
def insert_entry (fuel : Nat) (d : DocState) (name : String) (ty : EntryType) :
    Option (DirectoryId × DocState) :=
  let p := next_empty_entry d
  let entry_id := p.1
  let d1 := p.2
  let d2 := setEntry d1 entry_id { entryAt d1 entry_id with name := name, type := ty }
  match tree_insert fuel d2 entry_id 0 with
  | some d3 => some (entry_id, d3)
  | none => none

/-- The while loop of tree_path: climb parent_storage_ while positive,
appending at each step the name of the storage just climbed to. -/
def tree_path_go (d : DocState) : Nat → DirectoryId → List String → Option (List String)
  | 0, storage_id, acc => if storage_id > 0 then none else some acc
  | fuel + 1, storage_id, acc =>
    if storage_id > 0 then
      let storage_id1 := d.parentStorage storage_id
      tree_path_go d fuel storage_id1 (acc ++ [(entryAt d storage_id1).name])
    else some acc

/-- compound_document::tree_path(id) = "/" + join_path(result) +
entries_[id].name(). -/
def tree_path (fuel : Nat) (d : DocState) (id : DirectoryId) : Option String :=
  match tree_path_go d fuel (d.parentStorage id) [] with
  | some result => some ("/" ++ join_path result ++ (entryAt d id).name)
  | none => none

/-- The scan loop of find_entry over entries_ with its running index:
return the first id whose type matches and whose reconstructed tree_path
equals the name, End when the scan is exhausted. -/
def find_entry_go (fuel : Nat) (d : DocState) (name : String) (ty : EntryType) :
    Nat → List CDEntry → Option DirectoryId
  | _, [] => some EndDir
  | i, e :: rest =>
    if e.type = ty then
      match tree_path fuel d (Int.ofNat i) with
      | none => none
      | some p =>
        if p = name then some (Int.ofNat i) else find_entry_go fuel d name ty (i + 1) rest
    else find_entry_go fuel d name ty (i + 1) rest

/-- compound_document::find_entry(name, type), with the special case for
the root storage. -/
def find_entry (fuel : Nat) (d : DocState) (name : String) (ty : EntryType) :
    Option DirectoryId :=
  if ty = EntryType.RootStorage ∧ (name = "/" ∨ name = "/Root Entry") then some 0
  else find_entry_go fuel d name ty 0 d.entries

/-- compound_document::contains_entry(path, type) = find_entry(...) >= 0. -/
def contains_entry (fuel : Nat) (d : DocState) (path : String) (ty : EntryType) :
    Option Bool :=
  (find_entry fuel d path ty).map (fun i => i ≥ 0)

/-- The failure open_read_stream hits when find_entry yields no valid id:
entries_.at raises std::out_of_range. -/
inductive ReadErr where
  | atOutOfRange
deriving DecidableEq, Repr

/-- compound_document::open_read_stream(name): resolve the name to a
UserStream entry with find_entry, index entries_.at with the result (which
raises out_of_range when the id is End = -1), then expose a stream over
the bytes of the constructor argument of compound_document_istreambuf,
which the source passes the NAME, not the stream contents: the returned
readable data is the character sequence of the path itself. -/
def open_read_stream (fuel : Nat) (d : DocState) (name : String) :
    Option (Except ReadErr (List Char)) :=
  match find_entry fuel d name EntryType.UserStream with
  | none => none
  | some entry_id =>
    if entry_id < 0 ∨ d.entries.length ≤ entry_id.toNat then
      some (Except.error ReadErr.atOutOfRange)
    else
      some (Except.ok name.data)

/-- compound_document::open_write_stream(name): find the entry when it
exists, insert it otherwise.  The returned byte sink is a
compound_document_ostreambuf seeded with the name; nothing ever copies its
buffered bytes into sectors. -/
def open_write_stream (fuel : Nat) (d : DocState) (name : String) :
    Option (DirectoryId × DocState) :=
  match contains_entry fuel d name EntryType.UserStream with
  | none => none
  | some b =>
    if b then (find_entry fuel d name EntryType.UserStream).map (fun i => (i, d))
    else insert_entry fuel d name EntryType.UserStream

/-- The construct-for-write path: write_header then
insert_entry("Root Entry", RootStorage) on the default-initialised
members. -/
def docConstructWrite (fuel : Nat) : Option DocState :=
  (insert_entry fuel { header := {} } "Root Entry" EntryType.RootStorage).map
    (fun p => p.2)

/-- A document state as parsed from a file holding one user stream: entry
0 is the root storage, entry 1 a UserStream named a (path /a) whose
recorded chain start is sector 3 and whose recorded size is 3 bytes. -/
def docC1 : DocState :=
  { header := {}
    entries :=
      [{ name := "Root Entry", type := EntryType.RootStorage },
       { name := "a", type := EntryType.UserStream, start := 3, size := 3 }] }

/-- The document obtained by constructing for write and then opening write
streams named /Data and then /DATA. -/
def docC6 : Option DocState :=
  (docConstructWrite 100).bind fun d =>
    (open_write_stream 100 d "/Data").bind fun p =>
      (open_write_stream 100 p.2 "/DATA").map fun q => q.2

/-- How many directory entries hold type UserStream. -/
def count_user_streams (d : DocState) : Nat :=
  (d.entries.filter fun e => e.type = EntryType.UserStream).length

/-- How many directory entries hold type UserStorage. -/
def count_user_storages (d : DocState) : Nat :=
  (d.entries.filter fun e => e.type = EntryType.UserStorage).length

/-- The document obtained by constructing for write and inserting the
nested path /a/b. -/
def docC7 : Option (DirectoryId × DocState) :=
  (docConstructWrite 100).bind fun d => insert_entry 100 d "/a/b" EntryType.UserStream

/-- C1.  The claim says reopening a written document and calling
open_read_stream(path) yields exactly the bytes written to that path.  The
source builds the readable stream from the bytes of the PATH STRING itself
(compound_document_istreambuf is constructed from the name), never touching
the recorded chain: on a document holding a 3-byte user stream at /a, the
read yields the two characters of the path, not the stored bytes; the write
side likewise buffers into an ostreambuf that is never flushed to
sectors. -/
theorem C1_open_read_stream_returns_name_bytes :
    (entryAt docC1 1).type = EntryType.UserStream ∧
      (entryAt docC1 1).size = 3 ∧
      open_read_stream 100 docC1 "/a" = some (Except.ok ['/', 'a']) := by
  refine ⟨rfl, rfl, rfl⟩

/-- C6.  The claim says inserting a second user stream whose case-folded
name collides (insert /Data then /DATA) fails with a Naming error and
leaves exactly one user stream.  The source has no collision check at all:
the duplicate-detection in open_write_stream is a case-sensitive exact path
comparison, so the second open inserts a second entry and the directory
ends with two user streams (and no error path exists in insert_entry). -/
theorem C6_case_insensitive_collision_not_detected :
    docC6.map count_user_streams = some 2 := by
  rfl

/-- C7.  The claim says inserting an entry under a slash-separated path creates
the missing intermediate storages and attaches the leaf under its true
parent.  The source attaches every new entry under storage 0 (the comment
TODO parse path from name marks it): inserting /a/b yields entry 1 whose
parent storage is 0, and no UserStorage entry is ever created. -/
theorem C7_insert_ignores_path_components :
    docC7.map (fun p => (p.1, p.2.parentStorage p.1, count_user_storages p.2))
      = some (1, 0, 0) := by
  rfl

theorem find_entry_go_no_match (fuel : Nat) (d : DocState) (name : String) :
    ∀ (l : List CDEntry) (i : Nat),
      (∀ k, k < l.length → (l.getD k {}).type = EntryType.UserStream →
        tree_path fuel d (Int.ofNat (i + k)) ≠ some name) →
      ∀ j, find_entry_go fuel d name EntryType.UserStream i l = some j → j = EndDir := by
  intro l
  induction l with
  | nil =>
    intro i _ j hj
    simp only [find_entry_go, Option.some.injEq] at hj
    exact hj.symm
  | cons e rest ih =>
    intro i h j hj
    simp only [find_entry_go] at hj
    by_cases he : e.type = EntryType.UserStream
    · rw [if_pos he] at hj
      cases htp : tree_path fuel d (Int.ofNat i) with
      | none => rw [htp] at hj; cases hj
      | some p =>
        rw [htp] at hj
        have hne : p ≠ name := by
          intro hc
          refine h 0 (by simp) ?_ ?_
          · rw [List.getD_cons_zero]; exact he
          · rw [Nat.add_zero, htp, hc]
        have hj2 : (if p = name then some (Int.ofNat i)
            else find_entry_go fuel d name EntryType.UserStream (i + 1) rest) = some j := hj
        rw [if_neg hne] at hj2
        refine ih (i + 1) ?_ j hj2
        intro k hk ht
        have hk1 := h (k + 1) (Nat.succ_lt_succ hk) (by rw [List.getD_cons_succ]; exact ht)
        rw [show i + (k + 1) = i + 1 + k from by omega] at hk1
        exact hk1
    · rw [if_neg he] at hj
      refine ih (i + 1) ?_ j hj
      intro k hk ht
      have hk1 := h (k + 1) (Nat.succ_lt_succ hk) (by rw [List.getD_cons_succ]; exact ht)
      rw [show i + (k + 1) = i + 1 + k from by omega] at hk1
      exact hk1

/-- C9.  open_read_stream on a path for which no directory entry of type
UserStream exists (every UserStream-typed entry reconstructs to a
different path) does not return a readable stream: find_entry yields
End = -1 and entries_.at(-1) raises out_of_range, which is the not-found
failure surfaced to the caller. -/
theorem C9_open_read_stream_absent_fails (fuel : Nat) (d : DocState) (name : String)
    (h : ∀ k, k < d.entries.length →
      (d.entries.getD k {}).type = EntryType.UserStream →
      tree_path fuel d (Int.ofNat k) ≠ some name) :
    ∀ r, open_read_stream fuel d name = some r →
      r = Except.error ReadErr.atOutOfRange := by
  have hfe : find_entry fuel d name EntryType.UserStream
      = find_entry_go fuel d name EntryType.UserStream 0 d.entries := by
    unfold find_entry
    rw [if_neg]
    rintro ⟨h1, -⟩
    cases h1
  intro r hr
  cases hgo : find_entry_go fuel d name EntryType.UserStream 0 d.entries with
  | none =>
    unfold open_read_stream at hr
    rw [hfe, hgo] at hr
    cases hr
  | some j =>
    have hj : j = EndDir := by
      refine find_entry_go_no_match fuel d name d.entries 0 ?_ j hgo
      intro k hk ht
      rw [Nat.zero_add]
      exact h k hk ht
    have hcomp : open_read_stream fuel d name = some (Except.error ReadErr.atOutOfRange) := by
      unfold open_read_stream
      rw [hfe, hgo, hj]
      rfl
    rw [hcomp] at hr
    exact (Option.some_inj.mp hr).symm

/-- Witness for C9 at a concrete input: on the one-stream document the
path /missing matches no UserStream entry, and open_read_stream surfaces
the failure. -/
theorem C9_witness :
    (∀ k, k < docC1.entries.length →
      (docC1.entries.getD k {}).type = EntryType.UserStream →
      tree_path 100 docC1 (Int.ofNat k) ≠ some "/missing") ∧
    (∀ r, open_read_stream 100 docC1 "/missing" = some r →
      r = Except.error ReadErr.atOutOfRange) :=
  ⟨by decide, C9_open_read_stream_absent_fails 100 docC1 "/missing" (by decide)⟩
